import Mathlib

/-!
Verification development for the TES3 Anthology Bloodmoon Converter.

The C++ sources are embedded shallowly:
* machine doubles are modelled as exact rationals (`ℚ`); the arithmetic the
  converter performs on coordinates (add, subtract, multiply by the constant
  8192, `std::floor` division) is exact on the values appearing here;
* the sqlite-backed reference dataset is modelled as `Database`: either a
  lookup table `Int → Int → Bool` or a simulated query-preparation failure;
* JSON record trees are modelled by the `Rec` / `CellRef` structures holding
  exactly the fields the translated passes read and write;
* the `std::regex` command matching (ECMAScript dialect, case-insensitive,
  leftmost match, greedy backtracking) is modelled by list-of-successes
  parsers whose result lists are ordered exactly as the backtracking engine
  explores alternatives, the first element being the engine's match.
-/

namespace TES3AB

/-! ### Grid offsets and the coordinate validator (ab_coord_processor.cpp) -/

/-- Embeds `struct GridOffset` from ab_coord_processor.h. -/
structure GridOffset where
  offsetX : Int
  offsetY : Int
deriving Repr, DecidableEq

/-- Embeds `getGridOffset`: conversionType 1 (Bloodmoon to Anthology) gives
the forward offset, anything else gives the reverse offset. -/
def getGridOffset (conversionType : Int) : GridOffset :=
  if conversionType = 1 then { offsetX := 7, offsetY := 6 }
  else { offsetX := -7, offsetY := -6 }

/-- The sqlite database handle: either the prepared query works against a
table of cell indices, or query preparation fails. -/
inductive Database where
  | prepFail
  | table (contains : Int → Int → Bool)

/-- Result of `isCoordinateValid` together with the error text written to the
diagnostic channel (`std::cerr`) on a query-preparation failure. -/
structure ValidResult where
  result : Bool
  diagnostics : List String
deriving Repr, DecidableEq

/-- Diagnostic message emitted by `isCoordinateValid` when
`sqlite3_prepare_v2` fails. -/
def prepErrorMsg : String := "Error preparing database query"

/-- Embeds `isCoordinateValid` from ab_coord_processor.cpp lines 70-116: the
probe cell is adjusted by the offset only for conversionType 2; a failed query
preparation reports an error and returns false; otherwise the adjusted cell is
looked up in the database and, on a miss, the original cell is looked up in
the user-supplied custom coordinate set. -/
def isCoordinateValid (db : Database) (conversionType : Int) (gridX gridY : Int)
    (customCoordinates : Int × Int → Bool) : ValidResult :=
  let offset := getGridOffset conversionType
  let adjustedGridX := if conversionType = 2 then gridX + offset.offsetX else gridX
  let adjustedGridY := if conversionType = 2 then gridY + offset.offsetY else gridY
  match db with
  | .prepFail => { result := false, diagnostics := [prepErrorMsg] }
  | .table contains =>
      if contains adjustedGridX adjustedGridY then { result := true, diagnostics := [] }
      else if customCoordinates (gridX, gridY) then { result := true, diagnostics := [] }
      else { result := false, diagnostics := [] }

/-! ### Coordinate translation (the formula shared by all passes in
ab_data_processor.cpp) -/

/-- Embeds `static_cast<int>(std::floor(coord / 8192.0))`, the grid index of a
world coordinate. -/
def cellOf (coord : ℚ) : Int := ⌊coord / 8192⌋

/-- Embeds the translation formula used by every structured pass:
`newDest = (newGrid * 8192.0) + (dest - (grid * 8192.0))` with
`grid = cellOf dest` and `newGrid = grid + offset`, applied componentwise. -/
def translatePoint (p : ℚ × ℚ) (offset : GridOffset) : ℚ × ℚ :=
  let gridX := cellOf p.1
  let gridY := cellOf p.2
  (((gridX + offset.offsetX : Int) : ℚ) * 8192 + (p.1 - ((gridX : ℚ) * 8192)),
   ((gridY + offset.offsetY : Int) : ℚ) * 8192 + (p.2 - ((gridY : ℚ) * 8192)))

/-- The additive inverse of an offset (the opposite conversion direction). -/
def negOffset (offset : GridOffset) : GridOffset :=
  { offsetX := -offset.offsetX, offsetY := -offset.offsetY }

/-! ### Numeric text: `std::stod` on the matched operands and the
`std::ostringstream` fixed formatting used when commands are re-emitted -/

/-- Value of a digit character. -/
def digitVal (c : Char) : ℕ := c.toNat - 48

/-- Value of a digit string, most significant digit first. -/
def digitsToNat (ds : List Char) : ℕ := ds.foldl (fun a c => a * 10 + digitVal c) 0

/-- Exact value of an unsigned decimal literal `\d+(\.\d+)?`. -/
def parseUnsigned (s : List Char) : ℚ :=
  let intDigits := s.takeWhile Char.isDigit
  let rest := s.dropWhile Char.isDigit
  match rest with
  | '.' :: frac => (digitsToNat intDigits : ℚ) + (digitsToNat frac : ℚ) / 10 ^ frac.length
  | _ => (digitsToNat intDigits : ℚ)

/-- Embeds `std::stod` on a string matched by `-?\d+(?:\.\d+)?`: the exact
value of the decimal literal (the double rounding is not modelled; all
operands appearing in this development are exactly representable). -/
def parseDecimal (s : List Char) : ℚ :=
  match s with
  | '-' :: rest => -(parseUnsigned rest)
  | _ => parseUnsigned s

/-- Round to the nearest integer, ties to even: the rounding applied by the
iostream fixed formatter to the exact value being printed. -/
def rhe (q : ℚ) : Int :=
  let f := ⌊q⌋
  if q - (f : ℚ) < 1 / 2 then f
  else if 1 / 2 < q - (f : ℚ) then f + 1
  else if f % 2 = 0 then f else f + 1

/-- Decimal digits of a natural number. -/
def natChars (n : ℕ) : List Char := (Nat.repr n).toList

/-- A fractional part below 1000 printed with exactly three digits. -/
def pad3 (n : ℕ) : List Char :=
  if n < 10 then '0' :: '0' :: natChars n
  else if n < 100 then '0' :: natChars n
  else natChars n

/-- Embeds `std::ostringstream << std::fixed << std::setprecision(3)` applied
to a double: sign, integer part, point, exactly three fractional digits. -/
def fmt3 (q : ℚ) : List Char :=
  let m := (rhe (|q| * 1000)).toNat
  (if q < 0 then ['-'] else []) ++ natChars (m / 1000) ++ '.' :: pad3 (m % 1000)

/-- Embeds `std::ostringstream << std::fixed << std::setprecision(0)` applied
to a double: sign and integer part, no decimal point. -/
def fmt0 (q : ℚ) : List Char :=
  (if q < 0 then ['-'] else []) ++ natChars (rhe |q|).toNat

/-! ### The ECMAScript regex engine specialised to the command patterns

`std::regex` with default flags is the ECMAScript dialect: the match is the
leftmost one, and at the match position alternatives are explored by
depth-first backtracking, greedy quantifiers first.  Each parser below maps an
input to the list of `(consumed, rest)` splits in exactly that exploration
order, so the head of the list at the leftmost viable position is the match
the engine reports. -/

/-- A backtracking parser: every way to split the input into a consumed
prefix and a remainder, in engine exploration order. -/
abbrev P := List Char → List (List Char × List Char)

/-- Sequencing of two parsers. -/
def pSeq (p q : P) : P := fun s =>
  (p s).flatMap fun pr => (q pr.2).map fun qr => (pr.1 ++ qr.1, qr.2)

/-- Ordered alternation. -/
def pAlt (p q : P) : P := fun s => p s ++ q s

/-- Greedy option `p?`: with `p` first, then without. -/
def pOpt (p : P) : P := fun s => p s ++ [([], s)]

/-- Greedy star over a character class: longest consumed prefix first. -/
def classStarSplits (f : Char → Bool) : P := fun s =>
  let n := (s.takeWhile f).length
  (List.range (n + 1)).reverse.map fun k => (s.take k, s.drop k)

/-- Greedy plus over a character class: longest nonempty prefix first. -/
def classPlusSplits (f : Char → Bool) : P := fun s =>
  let n := (s.takeWhile f).length
  ((List.range n).reverse.map fun k => (s.take (k + 1), s.drop (k + 1)))

/-- Greedy optional literal character (`,?` and `-?`). -/
def pOptChar (c : Char) : P := fun s =>
  match s with
  | c2 :: rest => if c2 = c then [([c], rest), ([], s)] else [([], s)]
  | [] => [([], s)]

/-- Case-insensitive literal, as the `icase` flag treats the quoted keyword. -/
def pLitCI (kw : List Char) : P := fun s =>
  if (s.take kw.length).map Char.toLower = kw then [(s.take kw.length, s.drop kw.length)]
  else []

/-- The `\s` class of the ECMAScript dialect (ASCII part). -/
def isSpaceRe (c : Char) : Bool :=
  c = ' ' || c = '\t' || c = '\n' || c = '\r' || c = '\x0b' || c = '\x0c'

/-- The operand separator `\s*,?\s*` appearing between all command operands. -/
def pSep : P :=
  pSeq (classStarSplits isSpaceRe) (pSeq (pOptChar ',') (classStarSplits isSpaceRe))

/-- Digit run `\d+`. -/
def pDigits : P := classPlusSplits Char.isDigit

/-- Fractional part `\.\d+`. -/
def pFrac : P := fun s =>
  match s with
  | c :: rest =>
      if c = '.' then (classPlusSplits Char.isDigit rest).map fun r => ('.' :: r.1, r.2)
      else []
  | [] => []

/-- Numeric operand `-?\d+(?:\.\d+)?`. -/
def pNumber : P := pSeq (pOptChar '-') (pSeq pDigits (pOpt pFrac))

/-- Quoted identifier `\"[^\"]+\"`. -/
def pQuoted : P := fun s =>
  match s with
  | c :: rest =>
      if c = '"' then
        (classPlusSplits (fun c2 => decide (c2 ≠ '"')) rest).flatMap fun r =>
          match r.2 with
          | c3 :: rest3 => if c3 = '"' then [('"' :: r.1 ++ ['"'], rest3)] else []
          | [] => []
      else []
  | [] => []

/-- Identifier operand `(?:\"[^\"]+\")|\S+`, quoted alternative first. -/
def pActor : P := pAlt pQuoted (classPlusSplits (fun c => ! isSpaceRe c))

/-- The optional trailing reset group `(?:\s*,?\s*(\d+))?`: consumed text,
captured digits (none when the group does not participate), remainder. -/
def pResetGroup (s : List Char) : List (List Char × Option (List Char) × List Char) :=
  ((pSep s).flatMap fun sr => (pDigits sr.2).map fun dr => (sr.1 ++ dr.1, some dr.1, dr.2))
    ++ [([], none, s)]

/-- Capture groups of one AiEscort match, plus the full matched text
(`match.str()`). -/
structure AiEscortMatch where
  kw : List Char
  actorID : List Char
  duration : List Char
  xStr : List Char
  yStr : List Char
  zStr : List Char
  reset : Option (List Char)
  full : List Char
deriving Repr, DecidableEq

/-- The AiEscort keyword in the case-folded form the `icase` literal uses. -/
def kwAiEscort : List Char := String.toList "aiescort"

/-- All matches of the AiEscort regex
`(AiEscort)\s*,?\s*((?:\"[^\"]+\")|\S+)\s*,?\s*(\d+)\s*,?\s*(num)\s*,?\s*(num)\s*,?\s*(num)(?:\s*,?\s*(\d+))?`
anchored at the head of the input, in backtracking order. -/
def matchAiEscortAt (s : List Char) : List (AiEscortMatch × List Char) :=
  (pLitCI kwAiEscort s).flatMap fun kr =>
  (pSep kr.2).flatMap fun s1 =>
  (pActor s1.2).flatMap fun ar =>
  (pSep ar.2).flatMap fun s2 =>
  (pDigits s2.2).flatMap fun dr =>
  (pSep dr.2).flatMap fun s3 =>
  (pNumber s3.2).flatMap fun xr =>
  (pSep xr.2).flatMap fun s4 =>
  (pNumber s4.2).flatMap fun yr =>
  (pSep yr.2).flatMap fun s5 =>
  (pNumber s5.2).flatMap fun zr =>
  (pResetGroup zr.2).map fun rr =>
    ({ kw := kr.1, actorID := ar.1, duration := dr.1, xStr := xr.1, yStr := yr.1,
       zStr := zr.1, reset := rr.2.1,
       full := kr.1 ++ s1.1 ++ ar.1 ++ s2.1 ++ dr.1 ++ s3.1 ++ xr.1 ++ s4.1 ++ yr.1
                 ++ s5.1 ++ zr.1 ++ rr.1 }, rr.2.2)

/-- Embeds `std::regex_search` with the AiEscort regex: the leftmost position
with a viable match wins, and there the first alternative in backtracking
order is reported.  Returns the text before the match, the match, and the
suffix the next search resumes from. -/
def searchAiEscort : List Char → Option (List Char × AiEscortMatch × List Char)
  | [] =>
      match matchAiEscortAt [] with
      | (m, r) :: _ => some ([], m, r)
      | [] => none
  | c :: rest =>
      match matchAiEscortAt (c :: rest) with
      | (m, r) :: _ => some ([], m, r)
      | [] => (searchAiEscort rest).map fun t => (c :: t.1, t.2.1, t.2.2)

/-- The `", "` separator the re-emitted commands are joined with. -/
def commaSep : List Char := String.toList ", "

/-- Embeds the body of the AiEscort match loop (ab_data_processor.cpp lines
129-184): parse the spatial operands, derive the grid cell, consult
`isCoordinateValid`; when valid re-emit the command with the translated (x,y)
in fixed 3-decimal format and mark the replacement, otherwise re-emit
`match.str()` unchanged.  Returns the emitted chunk and whether a rewrite
happened. -/
def rewriteAiEscortStep (db : Database) (conversionType : Int)
    (customCoordinates : Int × Int → Bool) (offset : GridOffset)
    (m : AiEscortMatch) : List Char × Bool :=
  let destX := parseDecimal m.xStr
  let destY := parseDecimal m.yStr
  let destZ := parseDecimal m.zStr
  let gridX := cellOf destX
  let gridY := cellOf destY
  if (isCoordinateValid db conversionType gridX gridY customCoordinates).result then
    let newGridX := gridX + offset.offsetX
    let newGridY := gridY + offset.offsetY
    let newDestX := ((newGridX : ℚ) * 8192) + (destX - ((gridX : ℚ) * 8192))
    let newDestY := ((newGridY : ℚ) * 8192) + (destY - ((gridY : ℚ) * 8192))
    (m.kw ++ commaSep ++ m.actorID ++ commaSep ++ m.duration ++ commaSep
       ++ fmt3 newDestX ++ commaSep ++ fmt3 newDestY ++ commaSep ++ fmt3 destZ
       ++ (match m.reset with
           | some rv => commaSep ++ rv
           | none => []), true)
  else (m.full, false)

/-- Embeds the `while (std::regex_search(...))` loop over one text field: the
text before each match is copied, each match is rewritten or kept by
`rewriteAiEscortStep`, and the remaining text is appended.  The Bool is the
`scriptUpdated` flag.  The fuel only bounds the number of matches processed;
every theorem below holds for every fuel value. -/
def rewriteAiEscortText (db : Database) (conversionType : Int)
    (customCoordinates : Int × Int → Bool) (offset : GridOffset) :
    ℕ → List Char → List Char × Bool
  | 0, s => (s, false)
  | fuel + 1, s =>
      match searchAiEscort s with
      | none => (s, false)
      | some (pre, m, rest) =>
          let step := rewriteAiEscortStep db conversionType customCoordinates offset m
          let tail := rewriteAiEscortText db conversionType customCoordinates offset fuel rest
          (pre ++ step.1 ++ tail.1, step.2 || tail.2)

/-- Capture groups of one Position match, plus the full matched text. -/
structure PositionMatch where
  kw : List Char
  xStr : List Char
  yStr : List Char
  zStr : List Char
  rotStr : List Char
  full : List Char
deriving Repr, DecidableEq

/-- The Position keyword in case-folded form. -/
def kwPosition : List Char := String.toList "position"

/-- All matches of the Position regex
`(Position)\s*,?\s*(num)\s*,?\s*(num)\s*,?\s*(num)\s*,?\s*(num)` anchored at
the head of the input, in backtracking order. -/
def matchPositionAt (s : List Char) : List (PositionMatch × List Char) :=
  (pLitCI kwPosition s).flatMap fun kr =>
  (pSep kr.2).flatMap fun s1 =>
  (pNumber s1.2).flatMap fun xr =>
  (pSep xr.2).flatMap fun s2 =>
  (pNumber s2.2).flatMap fun yr =>
  (pSep yr.2).flatMap fun s3 =>
  (pNumber s3.2).flatMap fun zr =>
  (pSep zr.2).flatMap fun s4 =>
  (pNumber s4.2).map fun rr =>
    ({ kw := kr.1, xStr := xr.1, yStr := yr.1, zStr := zr.1, rotStr := rr.1,
       full := kr.1 ++ s1.1 ++ xr.1 ++ s2.1 ++ yr.1 ++ s3.1 ++ zr.1 ++ s4.1 ++ rr.1 },
     rr.2)

/-- Leftmost Position match, as `std::regex_search` reports it. -/
def searchPosition : List Char → Option (List Char × PositionMatch × List Char)
  | [] =>
      match matchPositionAt [] with
      | (m, r) :: _ => some ([], m, r)
      | [] => none
  | c :: rest =>
      match matchPositionAt (c :: rest) with
      | (m, r) :: _ => some ([], m, r)
      | [] => (searchPosition rest).map fun t => (c :: t.1, t.2.1, t.2.2)

/-- Embeds the body of the Position match loop (ab_data_processor.cpp lines
1012-1059): spatial coordinates re-emitted with 3 decimals, the rotation with
0 decimals, or `match.str()` unchanged when the cell is not valid. -/
def rewritePositionStep (db : Database) (conversionType : Int)
    (customCoordinates : Int × Int → Bool) (offset : GridOffset)
    (m : PositionMatch) : List Char × Bool :=
  let destX := parseDecimal m.xStr
  let destY := parseDecimal m.yStr
  let destZ := parseDecimal m.zStr
  let zRot := parseDecimal m.rotStr
  let gridX := cellOf destX
  let gridY := cellOf destY
  if (isCoordinateValid db conversionType gridX gridY customCoordinates).result then
    let newGridX := gridX + offset.offsetX
    let newGridY := gridY + offset.offsetY
    let newDestX := ((newGridX : ℚ) * 8192) + (destX - ((gridX : ℚ) * 8192))
    let newDestY := ((newGridY : ℚ) * 8192) + (destY - ((gridY : ℚ) * 8192))
    (m.kw ++ commaSep ++ fmt3 newDestX ++ commaSep ++ fmt3 newDestY ++ commaSep
       ++ fmt3 destZ ++ commaSep ++ fmt0 zRot, true)
  else (m.full, false)

/-- The Position rewrite loop over one text field. -/
def rewritePositionText (db : Database) (conversionType : Int)
    (customCoordinates : Int × Int → Bool) (offset : GridOffset) :
    ℕ → List Char → List Char × Bool
  | 0, s => (s, false)
  | fuel + 1, s =>
      match searchPosition s with
      | none => (s, false)
      | some (pre, m, rest) =>
          let step := rewritePositionStep db conversionType customCoordinates offset m
          let tail := rewritePositionText db conversionType customCoordinates offset fuel rest
          (pre ++ step.1 ++ tail.1, step.2 || tail.2)

/-- Whether the case-folded keyword occurs anywhere in the text. -/
def hasKw (kw : List Char) : List Char → Bool
  | [] => decide ((List.map Char.toLower (List.take kw.length [])) = kw)
  | c :: rest =>
      decide (((c :: rest).take kw.length).map Char.toLower = kw) || hasKw kw rest

/-! ### The record tree -/

/-- One entry of a Cell's `references` array, restricted to the fields the
reference-translation sub-pass reads and writes.  `deleted` is the optional
boolean key, `temporary` records whether the `temporary` key is present, and
`translation` is the numeric array when present. -/
structure CellRef where
  refId : Option String
  deleted : Option Bool
  temporary : Bool
  translation : Option (List ℚ)
deriving Repr, DecidableEq

/-- One record of the decoded document, restricted to the fields the embedded
passes touch.  `grid` is a top-level `grid` array of two integers when
present, `dataGrid` the `grid` array nested under the `data` object,
`masters` the Header's masters list (each entry the name in its array's first
slot, `none` for a non-array or empty entry), `text` a Script's `text` field
as a character list. -/
structure Rec where
  type : Option String
  recId : Option String
  grid : Option (Int × Int)
  dataGrid : Option (Int × Int)
  references : Option (List CellRef)
  masters : Option (List (Option String))
  text : Option (List Char)
deriving Repr, DecidableEq

/-! ### The per-Cell reference-translation sub-pass and the grid pass
(ab_data_processor.cpp lines 1661-1782) -/

/-- Embeds the body of the reference loop in `processTranslation`: a
reference marked deleted is skipped; one carrying a `temporary` marker and a
translation array of at least two components gets its first two components
shifted by `offset * 8192`, unconditionally; anything else is left as is.
The Bool reports whether the reference was updated. -/
def processRefTr (offset : GridOffset) (ref : CellRef) : CellRef × Bool :=
  if ref.deleted = some true then (ref, false)
  else if ref.temporary then
    match ref.translation with
    | some (x :: y :: restT) =>
        let newTranslation :=
          (x + ((offset.offsetX * 8192 : Int) : ℚ)) ::
            (y + ((offset.offsetY * 8192 : Int) : ℚ)) :: restT
        ({ ref with translation := some newTranslation }, true)
    | _ => (ref, false)
  else (ref, false)

/-- Embeds `processTranslation`: when the record has no `references` array it
is returned unchanged (after a log line); otherwise every reference goes
through `processRefTr` and the replacements flag becomes 1 if any was
shifted.  No database or custom-coordinate lookup is involved. -/
def processTranslation (offset : GridOffset) (jsonData : Rec) (replacementsFlag : Int) :
    Rec × Int :=
  match jsonData.references with
  | none => (jsonData, replacementsFlag)
  | some refs =>
      let processed := refs.map (processRefTr offset)
      ({ jsonData with references := some (processed.map (fun pr => pr.1)) },
       if processed.any (fun pr => pr.2) then 1 else replacementsFlag)

/-- Embeds the body of the item loop in `processGridValues` (lines
1724-1780): only Cell, Landscape and PathGrid records are considered; the
grid pair is read from the top level when present, otherwise from under
`data`; a valid cell gets the offset added to the same location it was read
from; a Cell record additionally runs the reference sub-pass; the
replacements flag becomes 1 whenever the cell was valid. -/
def processGridItem (db : Database) (conversionType : Int)
    (customCoordinates : Int × Int → Bool) (offset : GridOffset)
    (item : Rec) (replacementsFlag : Int) : Rec × Int :=
  match item.type with
  | none => (item, replacementsFlag)
  | some typeName =>
      if typeName = "Cell" ∨ typeName = "Landscape" ∨ typeName = "PathGrid" then
        let hasTopLevelGrid := item.grid.isSome
        let hasDataGrid := item.dataGrid.isSome
        if hasTopLevelGrid = false ∧ hasDataGrid = false then (item, replacementsFlag)
        else
          let gxy := if hasTopLevelGrid then item.grid.getD (0, 0) else item.dataGrid.getD (0, 0)
          if (isCoordinateValid db conversionType gxy.1 gxy.2 customCoordinates).result then
            let newGrid := (gxy.1 + offset.offsetX, gxy.2 + offset.offsetY)
            let item1 :=
              if hasTopLevelGrid then { item with grid := some newGrid }
              else { item with dataGrid := some newGrid }
            let after :=
              if typeName = "Cell" then processTranslation offset item1 replacementsFlag
              else (item1, replacementsFlag)
          (after.1, 1)
          else (item, replacementsFlag)
      else (item, replacementsFlag)

/-- Embeds `processGridValues`: the item loop threading the replacements
flag through the whole record list. -/
def processGridValues (db : Database) (conversionType : Int)
    (customCoordinates : Int × Int → Bool) (offset : GridOffset) :
    List Rec → Int → List Rec × Int
  | [], replacementsFlag => ([], replacementsFlag)
  | item :: rest, replacementsFlag =>
      let step := processGridItem db conversionType customCoordinates offset item replacementsFlag
      let tail := processGridValues db conversionType customCoordinates offset rest step.2
      (step.1 :: tail.1, tail.2)

/-- Embeds `processScriptAiEscortTranslation` (lines 110-200): every record
of type Script with a `text` field has the field rewritten by the AiEscort
loop; a rewritten script raises the replacements flag and appends its id (or
"Unknown") to the updated-script list. -/
def processScriptAiEscortTranslation (db : Database) (conversionType : Int)
    (customCoordinates : Int × Int → Bool) (offset : GridOffset) :
    List Rec → Int → List String → List Rec × Int × List String
  | [], replacementsFlag, updatedScriptIDs => ([], replacementsFlag, updatedScriptIDs)
  | script :: rest, replacementsFlag, updatedScriptIDs =>
      let step :=
        if script.type = some "Script" then
          match script.text with
          | some scriptText =>
              let res := rewriteAiEscortText db conversionType customCoordinates offset
                scriptText.length scriptText
              ({ script with text := some res.1 },
               if res.2 then 1 else replacementsFlag,
               if res.2 then updatedScriptIDs ++ [script.recId.getD "Unknown"]
               else updatedScriptIDs)
          | none => (script, replacementsFlag, updatedScriptIDs)
        else (script, replacementsFlag, updatedScriptIDs)
      let tail := processScriptAiEscortTranslation db conversionType customCoordinates offset
        rest step.2.1 step.2.2
      (step.1 :: tail.1, tail.2)

/-! ### Dependency-order check and the per-file control flow
(tes3_ab_converter.cpp) -/

/-- Embeds the master-position scan of `checkDependencyOrder` (lines
458-465): the loop overwrites each position on every occurrence, so each slot
holds the index of the last entry named Morrowind.esm, Tribunal.esm and
Bloodmoon.esm respectively. -/
def masterPositions (masters : List (Option String)) : Option ℕ × Option ℕ × Option ℕ :=
  (List.zip (List.range masters.length) masters).foldl
    (fun acc p =>
      match p.2 with
      | some name =>
          if name = "Morrowind.esm" then (some p.1, acc.2.1, acc.2.2)
          else if name = "Tribunal.esm" then (acc.1, some p.1, acc.2.2)
          else if name = "Bloodmoon.esm" then (acc.1, acc.2.1, some p.1)
          else acc
      | none => acc)
    (none, none, none)

/-- Embeds `checkDependencyOrder` (lines 445-487): find the Header record,
require its masters list, require Morrowind.esm; with both Tribunal.esm and
Bloodmoon.esm present require the order M, T, B; otherwise require
Bloodmoon.esm after Morrowind.esm; fail in every other configuration. -/
def checkDependencyOrder (inputData : List Rec) : Bool :=
  match inputData.find? (fun item => item.type = some "Header") with
  | none => false
  | some header =>
      match header.masters with
      | none => false
      | some masters =>
          let pos := masterPositions masters
          match pos.1 with
          | none => false
          | some mwPos =>
              match pos.2.1, pos.2.2 with
              | some tPos, some bPos => decide (tPos > mwPos ∧ bPos > tPos)
              | _, _ =>
                  match pos.2.2 with
                  | some bPos => decide (bPos > mwPos)
                  | none => false

/-- Outcome of processing one input file in `main`'s batch loop. -/
inductive FileOutcome where
  | convertToJsonFailed
  | jsonLoadFailed
  | alreadyConverted
  | invalidMasters
  | skippedNoReplacements
  | headerTagError
  | saveJsonFailed
  | backupFailed
  | convertBackFailed
  | converted
deriving Repr, DecidableEq

/-- Result of one file: its outcome and the document written back over the
plugin, `none` when no output was emitted. -/
structure FileResult where
  outcome : FileOutcome
  emitted : Option (List Rec)
deriving Repr, DecidableEq

/-- One input file of a batch run: the decoded document together with the
success of each external collaborator step (tes3conv in both directions,
JSON load, JSON save, backup creation). -/
structure InputFile where
  doc : List Rec
  convertOk : Bool
  loadOk : Bool
  saveOk : Bool
  backupOk : Bool
  convertBackOk : Bool
deriving Repr, DecidableEq

/-- Embeds the body of `main`'s per-file loop (tes3_ab_converter.cpp lines
104-282): conversion to JSON, load, idempotence tag, dependency order, the
processing passes, zero-replacements skip, tag insertion, save, backup,
conversion back.  The passes are abstracted as `scan` (document to updated
document and replacements flag), the tag guard as `alreadyTagged`, tag
insertion as `addTag` (`none` when the header description cannot be
modified); every `continue` of the source is an early non-emitting return. -/
def mainFileStep (alreadyTagged : List Rec → Bool)
    (addTag : List Rec → Option (List Rec))
    (scan : List Rec → List Rec × Int) (file : InputFile) : FileResult :=
  if file.convertOk = false then { outcome := .convertToJsonFailed, emitted := none }
  else if file.loadOk = false then { outcome := .jsonLoadFailed, emitted := none }
  else if alreadyTagged file.doc then { outcome := .alreadyConverted, emitted := none }
  else if checkDependencyOrder file.doc = false then
    { outcome := .invalidMasters, emitted := none }
  else
    let scanned := scan file.doc
    if scanned.2 = 0 then { outcome := .skippedNoReplacements, emitted := none }
    else
      match addTag scanned.1 with
      | none => { outcome := .headerTagError, emitted := none }
      | some tagged =>
          if file.saveOk = false then { outcome := .saveJsonFailed, emitted := none }
          else if file.backupOk = false then { outcome := .backupFailed, emitted := none }
          else if file.convertBackOk = false then
            { outcome := .convertBackFailed, emitted := none }
          else { outcome := .converted, emitted := some tagged }

/-- Embeds the sequential batch loop: files are processed independently, one
after the other, each yielding its own result. -/
def processBatch (alreadyTagged : List Rec → Bool)
    (addTag : List Rec → Option (List Rec))
    (scan : List Rec → List Rec × Int) (files : List InputFile) : List FileResult :=
  files.map (mainFileStep alreadyTagged addTag scan)

end TES3AB

namespace TES3AB

/-- Shift of a single component by a whole number of cells. -/
theorem translate_component_eq (c : ℚ) (o : Int) :
    ((cellOf c + o : Int) : ℚ) * 8192 + (c - ((cellOf c : ℚ) * 8192)) = c + (o : ℚ) * 8192 := by
  push_cast
  ring

/-- The grid index of a coordinate shifted by `o` whole cells. -/
theorem cellOf_add_cells (c : ℚ) (o : Int) : cellOf (c + (o : ℚ) * 8192) = cellOf c + o := by
  unfold cellOf
  rw [show (c + (o : ℚ) * 8192) / 8192 = c / 8192 + (o : ℚ) by
    field_simp]
  exact Int.floor_add_int _ o

/-- Translating a point just shifts each component by a whole number of
cells. -/
theorem translatePoint_eval (p : ℚ × ℚ) (o : GridOffset) :
    translatePoint p o = (p.1 + (o.offsetX : ℚ) * 8192, p.2 + (o.offsetY : ℚ) * 8192) := by
  simp only [translatePoint]
  rw [Prod.ext_iff]
  constructor <;> dsimp only <;> push_cast <;> ring

/-- C1: for every cell index, isCoordinateValid probes the reference dataset
at the cell adjusted by the reverse offset, (gx + (-7), gy + (-6)), when the
conversion direction is Reverse (conversionType = 2), while the override-set
lookup uses the unadjusted (gx, gy); in the Forward direction (conversionType
= 1) both lookups use (gx, gy); the result is true exactly when the (possibly
adjusted) cell is in the dataset or the original cell is in the override
set. -/
theorem isCoordinateValid_direction_lookup (contains : Int → Int → Bool)
    (custom : Int × Int → Bool) (gx gy : Int) :
    ((isCoordinateValid (.table contains) 2 gx gy custom).result
        = (contains (gx + (-7)) (gy + (-6)) || custom (gx, gy)))
    ∧ ((isCoordinateValid (.table contains) 1 gx gy custom).result
        = (contains gx gy || custom (gx, gy))) := by
  constructor
  · simp only [isCoordinateValid, getGridOffset]
    norm_num
    cases hc : contains (gx + -7) (gy + -6) <;> cases ho : custom (gx, gy) <;>
      simp [hc, ho]
  · simp only [isCoordinateValid, getGridOffset]
    norm_num
    cases hc : contains gx gy <;> cases ho : custom (gx, gy) <;>
      simp [hc, ho]

/-- C2: translating a coordinate (cell index plus preserved sub-cell
remainder) and then translating the result with the inverse offset reproduces
the original coordinate exactly; moreover one translation moves the grid cell
by exactly the offset and leaves the sub-cell fractional remainder
unchanged. -/
theorem translatePoint_roundTrip (p : ℚ × ℚ) (offset : GridOffset) :
    translatePoint (translatePoint p offset) (negOffset offset) = p
    ∧ cellOf (translatePoint p offset).1 = cellOf p.1 + offset.offsetX
    ∧ cellOf (translatePoint p offset).2 = cellOf p.2 + offset.offsetY
    ∧ (translatePoint p offset).1 - ((cellOf (translatePoint p offset).1 : ℚ) * 8192)
        = p.1 - ((cellOf p.1 : ℚ) * 8192)
    ∧ (translatePoint p offset).2 - ((cellOf (translatePoint p offset).2 : ℚ) * 8192)
        = p.2 - ((cellOf p.2 : ℚ) * 8192) := by
  have h1 := translatePoint_eval p offset
  have hc1 : cellOf (translatePoint p offset).1 = cellOf p.1 + offset.offsetX := by
    rw [h1]
    exact cellOf_add_cells p.1 offset.offsetX
  have hc2 : cellOf (translatePoint p offset).2 = cellOf p.2 + offset.offsetY := by
    rw [h1]
    exact cellOf_add_cells p.2 offset.offsetY
  refine ⟨?_, hc1, hc2, ?_, ?_⟩
  · rw [translatePoint_eval, h1]
    simp only [negOffset]
    push_cast
    rw [Prod.ext_iff]
    constructor <;> dsimp only <;> ring
  · rw [hc1, h1]
    push_cast
    ring
  · rw [hc2, h1]
    push_cast
    ring

/-- C3: when query preparation fails, isCoordinateValid reports the error to
the diagnostic channel and returns false, for every cell and every override
set: a dataset error never yields true (fail closed). -/
theorem isCoordinateValid_prepFail_failClosed (conversionType gx gy : Int)
    (custom : Int × Int → Bool) :
    isCoordinateValid .prepFail conversionType gx gy custom
      = { result := false, diagnostics := [prepErrorMsg] } := rfl

/-- C9: when query preparation fails, isCoordinateValid returns false even
for a cell that is a member of the override set, so such a cell is not
treated as valid under a backend failure. -/
theorem isCoordinateValid_prepFail_ignores_overrides (conversionType gx gy : Int)
    (custom : Int × Int → Bool) (h : custom (gx, gy) = true) :
    (isCoordinateValid .prepFail conversionType gx gy custom).result = false := rfl

/-- Witness for C9 at the concrete override cell (3, 4). -/
theorem isCoordinateValid_prepFail_ignores_overrides_witness :
    ((fun p : Int × Int => decide (p = (3, 4))) (3, 4) = true)
    ∧ (isCoordinateValid .prepFail 2 3 4 (fun p => decide (p = (3, 4)))).result = false :=
  ⟨by decide, isCoordinateValid_prepFail_ignores_overrides 2 3 4
    (fun p => decide (p = (3, 4))) (by decide)⟩

/-! ### Soundness of the regex model: every reported split decomposes the
input, so the rewrite loop reassembles exactly the input around each match -/

/-- A parser is sound when each reported split is a decomposition of its
input. -/
def PSound (p : P) : Prop := ∀ s pr, pr ∈ p s → pr.1 ++ pr.2 = s

theorem pSeq_sound {p q : P} (hp : PSound p) (hq : PSound q) : PSound (pSeq p q) := by
  intro s pr h
  simp only [pSeq, List.mem_flatMap, List.mem_map] at h
  obtain ⟨a, ha, b, hb, rfl⟩ := h
  have h1 := hp s a ha
  have h2 := hq a.2 b hb
  dsimp only
  rw [List.append_assoc, h2, h1]

theorem pAlt_sound {p q : P} (hp : PSound p) (hq : PSound q) : PSound (pAlt p q) := by
  intro s pr h
  rcases List.mem_append.mp h with h1 | h1
  · exact hp s pr h1
  · exact hq s pr h1

theorem pOpt_sound {p : P} (hp : PSound p) : PSound (pOpt p) := by
  intro s pr h
  rcases List.mem_append.mp h with h1 | h1
  · exact hp s pr h1
  · simp only [List.mem_singleton] at h1
    subst h1
    rfl

theorem classStarSplits_sound (f : Char → Bool) : PSound (classStarSplits f) := by
  intro s pr h
  simp only [classStarSplits, List.mem_map, List.mem_reverse, List.mem_range] at h
  obtain ⟨k, _, rfl⟩ := h
  exact List.take_append_drop k s

theorem classPlusSplits_sound (f : Char → Bool) : PSound (classPlusSplits f) := by
  intro s pr h
  simp only [classPlusSplits, List.mem_map, List.mem_reverse, List.mem_range] at h
  obtain ⟨k, _, rfl⟩ := h
  exact List.take_append_drop (k + 1) s

theorem pOptChar_sound (c : Char) : PSound (pOptChar c) := by
  intro s pr h
  cases s with
  | nil =>
      simp only [pOptChar, List.mem_singleton] at h
      subst h
      rfl
  | cons c2 rest =>
      simp only [pOptChar] at h
      split at h
      · next hc =>
          simp only [List.mem_cons, List.mem_singleton, List.not_mem_nil, or_false] at h
          rcases h with rfl | rfl
          · simp [hc]
          · rfl
      · simp only [List.mem_singleton] at h
        subst h
        rfl

theorem pLitCI_sound (kw : List Char) : PSound (pLitCI kw) := by
  intro s pr h
  simp only [pLitCI] at h
  split at h
  · simp only [List.mem_singleton] at h
    subst h
    exact List.take_append_drop _ s
  · simp at h

theorem pSep_sound : PSound pSep :=
  pSeq_sound (classStarSplits_sound _) (pSeq_sound (pOptChar_sound _) (classStarSplits_sound _))

theorem pDigits_sound : PSound pDigits := classPlusSplits_sound _

theorem pFrac_sound : PSound pFrac := by
  intro s pr h
  cases s with
  | nil => simp [pFrac] at h
  | cons c rest =>
      simp only [pFrac] at h
      split at h
      · next hc =>
          subst hc
          simp only [List.mem_map] at h
          obtain ⟨r, hr, rfl⟩ := h
          have hs := classPlusSplits_sound Char.isDigit rest r hr
          dsimp only
          rw [List.cons_append, hs]
      · simp at h

theorem pNumber_sound : PSound pNumber :=
  pSeq_sound (pOptChar_sound _) (pSeq_sound pDigits_sound (pOpt_sound pFrac_sound))

theorem pQuoted_sound : PSound pQuoted := by
  intro s pr h
  cases s with
  | nil => simp [pQuoted] at h
  | cons c rest =>
      simp only [pQuoted] at h
      split at h
      · next hc =>
          subst hc
          simp only [List.mem_flatMap] at h
          obtain ⟨r, hr, hmem⟩ := h
          have hrs := classPlusSplits_sound (fun c3 => decide (c3 ≠ '"')) rest r hr
          revert hmem
          cases hq : r.2 with
          | nil => simp
          | cons c3 rest3 =>
              dsimp only
              split
              · next hc3 =>
                  subst hc3
                  intro hmem
                  simp only [List.mem_singleton] at hmem
                  subst hmem
                  dsimp only
                  have hall : r.1 ++ ('"' :: rest3) = rest := by rw [← hq, hrs]
                  simp [List.append_assoc, hall]
              · intro hmem
                simp at hmem
      · simp at h

theorem pActor_sound : PSound pActor := pAlt_sound pQuoted_sound (classPlusSplits_sound _)

theorem pResetGroup_sound (s : List Char) (t : List Char × Option (List Char) × List Char)
    (h : t ∈ pResetGroup s) : t.1 ++ t.2.2 = s := by
  simp only [pResetGroup, List.mem_append, List.mem_flatMap, List.mem_map,
    List.mem_singleton] at h
  rcases h with ⟨sr, hsr, dr, hdr, rfl⟩ | rfl
  · have h1 := pSep_sound s sr hsr
    have h2 := pDigits_sound sr.2 dr hdr
    dsimp only
    rw [List.append_assoc, h2, h1]
  · rfl

theorem matchAiEscortAt_sound (s : List Char) (mr : AiEscortMatch × List Char)
    (h : mr ∈ matchAiEscortAt s) : mr.1.full ++ mr.2 = s := by
  simp only [matchAiEscortAt, List.mem_flatMap, List.mem_map] at h
  obtain ⟨kr, hkr, s1, hs1, ar, har, s2, hs2, dr, hdr, s3, hs3, xr, hxr, s4, hs4, yr, hyr,
    s5, hs5, zr, hzr, rr, hrr, rfl⟩ := h
  have e1 := pLitCI_sound kwAiEscort s kr hkr
  have e2 := pSep_sound kr.2 s1 hs1
  have e3 := pActor_sound s1.2 ar har
  have e4 := pSep_sound ar.2 s2 hs2
  have e5 := pDigits_sound s2.2 dr hdr
  have e6 := pSep_sound dr.2 s3 hs3
  have e7 := pNumber_sound s3.2 xr hxr
  have e8 := pSep_sound xr.2 s4 hs4
  have e9 := pNumber_sound s4.2 yr hyr
  have e10 := pSep_sound yr.2 s5 hs5
  have e11 := pNumber_sound s5.2 zr hzr
  have e12 := pResetGroup_sound zr.2 rr hrr
  dsimp only
  simp only [List.append_assoc]
  rw [e12, e11, e10, e9, e8, e7, e6, e5, e4, e3, e2, e1]

theorem matchAiEscortAt_nil : matchAiEscortAt [] = [] := by decide

theorem matchPositionAt_nil : matchPositionAt [] = [] := by decide

theorem matchPositionAt_sound (s : List Char) (mr : PositionMatch × List Char)
    (h : mr ∈ matchPositionAt s) : mr.1.full ++ mr.2 = s := by
  simp only [matchPositionAt, List.mem_flatMap, List.mem_map] at h
  obtain ⟨kr, hkr, s1, hs1, xr, hxr, s2, hs2, yr, hyr, s3, hs3, zr, hzr, s4, hs4, rr, hrr,
    rfl⟩ := h
  have e1 := pLitCI_sound kwPosition s kr hkr
  have e2 := pSep_sound kr.2 s1 hs1
  have e3 := pNumber_sound s1.2 xr hxr
  have e4 := pSep_sound xr.2 s2 hs2
  have e5 := pNumber_sound s2.2 yr hyr
  have e6 := pSep_sound yr.2 s3 hs3
  have e7 := pNumber_sound s3.2 zr hzr
  have e8 := pSep_sound zr.2 s4 hs4
  have e9 := pNumber_sound s4.2 rr hrr
  dsimp only
  simp only [List.append_assoc]
  rw [e9, e8, e7, e6, e5, e4, e3, e2, e1]

theorem searchAiEscort_sound (s pre rest : List Char) (m : AiEscortMatch)
    (h : searchAiEscort s = some (pre, m, rest)) : pre ++ (m.full ++ rest) = s := by
  induction s generalizing pre m rest with
  | nil =>
      rw [searchAiEscort, matchAiEscortAt_nil] at h
      exact absurd h (by simp)
  | cons c cs ih =>
      rw [searchAiEscort] at h
      cases hm : matchAiEscortAt (c :: cs) with
      | cons hd tl =>
          rw [hm] at h
          obtain ⟨rfl, rfl, rfl⟩ : pre = [] ∧ m = hd.1 ∧ rest = hd.2 := by
            injection h with h2
            exact ⟨congrArg Prod.fst h2.symm, congrArg (fun t => t.2.1) h2.symm,
              congrArg (fun t => t.2.2) h2.symm⟩
          have := matchAiEscortAt_sound (c :: cs) hd (hm ▸ List.mem_cons_self hd tl)
          simpa using this
      | nil =>
          rw [hm] at h
          cases hs : searchAiEscort cs with
          | none => rw [hs] at h; exact absurd h (by simp)
          | some t =>
              rw [hs] at h
              simp only [Option.map_some] at h
              obtain ⟨rfl, rfl, rfl⟩ : pre = c :: t.1 ∧ m = t.2.1 ∧ rest = t.2.2 := by
                injection h with h2
                exact ⟨congrArg Prod.fst h2.symm, congrArg (fun u => u.2.1) h2.symm,
                  congrArg (fun u => u.2.2) h2.symm⟩
              have := ih t.1 t.2.2 t.2.1 (by rw [hs])
              simpa using this

theorem searchPosition_sound (s pre rest : List Char) (m : PositionMatch)
    (h : searchPosition s = some (pre, m, rest)) : pre ++ (m.full ++ rest) = s := by
  induction s generalizing pre m rest with
  | nil =>
      rw [searchPosition, matchPositionAt_nil] at h
      exact absurd h (by simp)
  | cons c cs ih =>
      rw [searchPosition] at h
      cases hm : matchPositionAt (c :: cs) with
      | cons hd tl =>
          rw [hm] at h
          obtain ⟨rfl, rfl, rfl⟩ : pre = [] ∧ m = hd.1 ∧ rest = hd.2 := by
            injection h with h2
            exact ⟨congrArg Prod.fst h2.symm, congrArg (fun t => t.2.1) h2.symm,
              congrArg (fun t => t.2.2) h2.symm⟩
          have := matchPositionAt_sound (c :: cs) hd (hm ▸ List.mem_cons_self hd tl)
          simpa using this
      | nil =>
          rw [hm] at h
          cases hs : searchPosition cs with
          | none => rw [hs] at h; exact absurd h (by simp)
          | some t =>
              rw [hs] at h
              simp only [Option.map_some] at h
              obtain ⟨rfl, rfl, rfl⟩ : pre = c :: t.1 ∧ m = t.2.1 ∧ rest = t.2.2 := by
                injection h with h2
                exact ⟨congrArg Prod.fst h2.symm, congrArg (fun u => u.2.1) h2.symm,
                  congrArg (fun u => u.2.2) h2.symm⟩
              have := ih t.1 t.2.2 t.2.1 (by rw [hs])
              simpa using this

theorem matchAiEscortAt_eq_nil (s : List Char)
    (h : ¬ (s.take kwAiEscort.length).map Char.toLower = kwAiEscort) :
    matchAiEscortAt s = [] := by
  unfold matchAiEscortAt pLitCI
  rw [if_neg h]
  rfl

theorem matchPositionAt_eq_nil (s : List Char)
    (h : ¬ (s.take kwPosition.length).map Char.toLower = kwPosition) :
    matchPositionAt s = [] := by
  unfold matchPositionAt pLitCI
  rw [if_neg h]
  rfl

theorem searchAiEscort_eq_none (s : List Char) (h : hasKw kwAiEscort s = false) :
    searchAiEscort s = none := by
  induction s with
  | nil => rw [searchAiEscort, matchAiEscortAt_nil]
  | cons c cs ih =>
      rw [hasKw, Bool.or_eq_false_iff] at h
      obtain ⟨h1, h2⟩ := h
      rw [searchAiEscort, matchAiEscortAt_eq_nil (c :: cs) (by simpa using h1), ih h2]
      rfl

theorem searchPosition_eq_none (s : List Char) (h : hasKw kwPosition s = false) :
    searchPosition s = none := by
  induction s with
  | nil => rw [searchPosition, matchPositionAt_nil]
  | cons c cs ih =>
      rw [hasKw, Bool.or_eq_false_iff] at h
      obtain ⟨h1, h2⟩ := h
      rw [searchPosition, matchPositionAt_eq_nil (c :: cs) (by simpa using h1), ih h2]
      rfl

theorem rewriteAiEscortText_invariant (db : Database) (conversionType : Int)
    (custom : Int × Int → Bool) (offset : GridOffset)
    (h : ∀ gx gy, (isCoordinateValid db conversionType gx gy custom).result = false) :
    ∀ fuel s, rewriteAiEscortText db conversionType custom offset fuel s = (s, false) := by
  intro fuel
  induction fuel with
  | zero => intro s; rfl
  | succ n ih =>
      intro s
      cases hs : searchAiEscort s with
      | none => rw [rewriteAiEscortText, hs]
      | some t =>
          obtain ⟨pre, m, rest⟩ := t
          have hstep : rewriteAiEscortStep db conversionType custom offset m = (m.full, false) := by
            rw [rewriteAiEscortStep]
            simp [h]
          rw [rewriteAiEscortText, hs]
          simp only [hstep, ih rest, Bool.or_false]
          rw [List.append_assoc, searchAiEscort_sound s pre rest m hs]

/-- C5: the rewriter is the identity whenever nothing is translated — a text
with zero occurrences of the recognized keyword (shown for AiEscort and for
Position) is returned unchanged with the updated flag clear, and when the
validator rejects every derived cell (not in the reference region, not in the
override set) each matched command is re-emitted as its original matched
text, so the whole text is returned unchanged. -/
theorem rewrite_identity_laws (db : Database) (conversionType : Int)
    (custom : Int × Int → Bool) (offset : GridOffset) (fuel : ℕ) (s : List Char) :
    (hasKw kwAiEscort s = false →
      rewriteAiEscortText db conversionType custom offset fuel s = (s, false))
    ∧ (hasKw kwPosition s = false →
      rewritePositionText db conversionType custom offset fuel s = (s, false))
    ∧ ((∀ gx gy, (isCoordinateValid db conversionType gx gy custom).result = false) →
      rewriteAiEscortText db conversionType custom offset fuel s = (s, false)) := by
  refine ⟨?_, ?_, ?_⟩
  · intro h
    cases fuel with
    | zero => rfl
    | succ n =>
        rw [rewriteAiEscortText, searchAiEscort_eq_none s h]
  · intro h
    cases fuel with
    | zero => rfl
    | succ n =>
        rw [rewritePositionText, searchPosition_eq_none s h]
  · intro h
    exact rewriteAiEscortText_invariant db conversionType custom offset h fuel s

/-- Witness for C5: a command-free script text is untouched, and the spec's
example command with cell (0, 0) not in the region and no overrides is
re-emitted byte-identically. -/
theorem rewrite_identity_laws_witness :
    (hasKw kwAiEscort (String.toList "Begin script set x to 1 end") = false
      ∧ rewriteAiEscortText Database.prepFail 1 (fun _ => false) (getGridOffset 1) 27
          (String.toList "Begin script set x to 1 end")
        = (String.toList "Begin script set x to 1 end", false))
    ∧ (hasKw kwPosition (String.toList "Begin script set x to 1 end") = false
      ∧ rewritePositionText Database.prepFail 1 (fun _ => false) (getGridOffset 1) 27
          (String.toList "Begin script set x to 1 end")
        = (String.toList "Begin script set x to 1 end", false))
    ∧ ((∀ gx gy, (isCoordinateValid (Database.table fun _ _ => false) 1 gx gy
          (fun _ => false)).result = false)
      ∧ rewriteAiEscortText (Database.table fun _ _ => false) 1 (fun _ => false)
          (getGridOffset 1) 42
          (String.toList "AiEscort, \"actor1\", 5, 1000.0, 2000.0, 0.0")
        = (String.toList "AiEscort, \"actor1\", 5, 1000.0, 2000.0, 0.0", false)) :=
  ⟨⟨by decide,
    (rewrite_identity_laws Database.prepFail 1 (fun _ => false) (getGridOffset 1) 27
      (String.toList "Begin script set x to 1 end")).1 (by decide)⟩,
   ⟨by decide,
    (rewrite_identity_laws Database.prepFail 1 (fun _ => false) (getGridOffset 1) 27
      (String.toList "Begin script set x to 1 end")).2.1 (by decide)⟩,
   ⟨fun gx gy => rfl,
    (rewrite_identity_laws (Database.table fun _ _ => false) 1 (fun _ => false)
      (getGridOffset 1) 42
      (String.toList "AiEscort, \"actor1\", 5, 1000.0, 2000.0, 0.0")).2.2
      (fun gx gy => rfl)⟩⟩

/-! ### Concrete evaluations of the rational-valued helpers (the Rat
arithmetic operations are irreducible by design, so these are established
once by `norm_num` and reused) -/

theorem parse_1000 : parseDecimal (String.toList "1000.0") = 1000 := by
  rw [show parseDecimal (String.toList "1000.0")
      = ((1000 : ℕ) : ℚ) + ((0 : ℕ) : ℚ) / 10 ^ (1 : ℕ) from rfl]
  norm_num

theorem parse_2000 : parseDecimal (String.toList "2000.0") = 2000 := by
  rw [show parseDecimal (String.toList "2000.0")
      = ((2000 : ℕ) : ℚ) + ((0 : ℕ) : ℚ) / 10 ^ (1 : ℕ) from rfl]
  norm_num

theorem parse_z1234 : parseDecimal (String.toList "0.1234") = 1234 / 10000 := by
  rw [show parseDecimal (String.toList "0.1234")
      = ((0 : ℕ) : ℚ) + ((1234 : ℕ) : ℚ) / 10 ^ (4 : ℕ) from rfl]
  norm_num

theorem parse_z123 : parseDecimal (String.toList "0.123") = 123 / 1000 := by
  rw [show parseDecimal (String.toList "0.123")
      = ((0 : ℕ) : ℚ) + ((123 : ℕ) : ℚ) / 10 ^ (3 : ℕ) from rfl]
  norm_num

theorem parse_90000 : parseDecimal (String.toList "90000.0") = 90000 := by
  rw [show parseDecimal (String.toList "90000.0")
      = ((90000 : ℕ) : ℚ) + ((0 : ℕ) : ℚ) / 10 ^ (1 : ℕ) from rfl]
  norm_num

theorem cellOf_1000 : cellOf (1000 : ℚ) = 0 := by
  unfold cellOf
  norm_num

theorem cellOf_2000 : cellOf (2000 : ℚ) = 0 := by
  unfold cellOf
  norm_num

theorem cellOf_90000 : cellOf (90000 : ℚ) = 10 := by
  unfold cellOf
  norm_num

theorem fmt3_58344 : fmt3 (58344 : ℚ) = String.toList "58344.000" := by
  have h1 : |(58344 : ℚ)| * 1000 = 58344000 := by norm_num
  have h2 : rhe (58344000 : ℚ) = 58344000 := by unfold rhe; norm_num
  unfold fmt3
  rw [h1, h2, if_neg (by norm_num : ¬ ((58344 : ℚ) < 0))]
  decide

theorem fmt3_51152 : fmt3 (51152 : ℚ) = String.toList "51152.000" := by
  have h1 : |(51152 : ℚ)| * 1000 = 51152000 := by norm_num
  have h2 : rhe (51152000 : ℚ) = 51152000 := by unfold rhe; norm_num
  unfold fmt3
  rw [h1, h2, if_neg (by norm_num : ¬ ((51152 : ℚ) < 0))]
  decide

theorem fmt3_z1234 : fmt3 ((1234 : ℚ) / 10000) = String.toList "0.123" := by
  have h1 : |(1234 : ℚ) / 10000| * 1000 = 1234 / 10 := by
    rw [abs_of_nonneg (by norm_num : (0 : ℚ) ≤ 1234 / 10000)]
    norm_num
  have h2 : rhe ((1234 : ℚ) / 10) = 123 := by
    unfold rhe
    norm_num
  unfold fmt3
  rw [h1, h2, if_neg (by norm_num : ¬ ((1234 : ℚ) / 10000 < 0))]
  decide

/-- Validity of the cell derived from (1000.0, 2000.0) against a reference
table holding exactly cell (0, 0). -/
theorem cexValid00 :
    (isCoordinateValid (Database.table fun gx gy => decide (gx = 0 ∧ gy = 0)) 1
      (cellOf (parseDecimal (String.toList "1000.0")))
      (cellOf (parseDecimal (String.toList "2000.0"))) (fun _ => false)).result = true := by
  rw [parse_1000, parse_2000, cellOf_1000, cellOf_2000]
  decide

/-- Invalidity of the cell derived from (90000.0, 90000.0) against the same
table. -/
theorem cexInvalid1010 :
    (isCoordinateValid (Database.table fun gx gy => decide (gx = 0 ∧ gy = 0)) 1
      (cellOf (parseDecimal (String.toList "90000.0")))
      (cellOf (parseDecimal (String.toList "90000.0"))) (fun _ => false)).result = false := by
  rw [parse_90000, cellOf_90000]
  decide

/-- The step evaluation behind the C4 counterexample: the valid AiEscort
match with z operand `0.1234` is re-emitted with z printed as `0.123`. -/
theorem cexStepEval :
    rewriteAiEscortStep (Database.table fun gx gy => decide (gx = 0 ∧ gy = 0)) 1
      (fun _ => false) (getGridOffset 1)
      { kw := String.toList "AiEscort", actorID := String.toList "\"a1\"",
        duration := String.toList "5", xStr := String.toList "1000.0",
        yStr := String.toList "2000.0", zStr := String.toList "0.1234", reset := none,
        full := String.toList "AiEscort \"a1\" 5 1000.0 2000.0 0.1234" }
      = (String.toList "AiEscort, \"a1\", 5, 58344.000, 51152.000, 0.123", true) := by
  unfold rewriteAiEscortStep
  dsimp only
  rw [parse_1000, parse_2000, parse_z1234, cellOf_1000, cellOf_2000]
  rw [show (isCoordinateValid (Database.table fun gx gy => decide (gx = 0 ∧ gy = 0)) 1 0 0
      (fun _ => false)).result = true from by decide]
  rw [if_pos rfl]
  rw [show (((0 + (getGridOffset 1).offsetX : Int) : ℚ) * 8192 + ((1000 : ℚ) - ((0 : Int) : ℚ) * 8192))
      = 58344 from by rw [show getGridOffset 1 = { offsetX := 7, offsetY := 6 } from rfl]; push_cast; norm_num]
  rw [show (((0 + (getGridOffset 1).offsetY : Int) : ℚ) * 8192 + ((2000 : ℚ) - ((0 : Int) : ℚ) * 8192))
      = 51152 from by rw [show getGridOffset 1 = { offsetX := 7, offsetY := 6 } from rfl]; push_cast; norm_num]
  rw [fmt3_58344, fmt3_51152, fmt3_z1234]
  decide

/-- C4 counterexample: in a match whose cell is valid, the rewrite does not
leave the z operand untouched: the source text carries z as `0.1234`, the
re-emitted command carries `0.123` — the fixed 3-decimal format changes both
the bytes and, here, the parsed value of z (and the operand separators are
normalized to a comma and a space). -/
theorem rewriteAiEscort_z_altered_counterexample :
    (rewriteAiEscortText (Database.table fun gx gy => decide (gx = 0 ∧ gy = 0)) 1
        (fun _ => false) (getGridOffset 1) 36
        (String.toList "AiEscort \"a1\" 5 1000.0 2000.0 0.1234")).1
      = String.toList "AiEscort, \"a1\", 5, 58344.000, 51152.000, 0.123"
    ∧ parseDecimal (String.toList "0.123") ≠ parseDecimal (String.toList "0.1234") := by
  constructor
  · have hsearch : searchAiEscort (String.toList "AiEscort \"a1\" 5 1000.0 2000.0 0.1234")
        = some ([],
          { kw := String.toList "AiEscort", actorID := String.toList "\"a1\"",
            duration := String.toList "5", xStr := String.toList "1000.0",
            yStr := String.toList "2000.0", zStr := String.toList "0.1234", reset := none,
            full := String.toList "AiEscort \"a1\" 5 1000.0 2000.0 0.1234" }, []) := by
      decide
    have htail : rewriteAiEscortText (Database.table fun gx gy => decide (gx = 0 ∧ gy = 0)) 1
        (fun _ => false) (getGridOffset 1) 35 [] = ([], false) := by
      rw [show (35 : ℕ) = 34 + 1 from rfl, rewriteAiEscortText,
        show searchAiEscort [] = none from rfl]
    rw [show (36 : ℕ) = 35 + 1 from rfl, rewriteAiEscortText, hsearch]
    dsimp only
    rw [cexStepEval, htail]
    decide
  · rw [parse_z123, parse_z1234]
    norm_num

/-- C4 as amended: a matched command with a valid cell is re-emitted with
keyword, actor id, duration and reset flag byte-identical to their captured
source text; the x and y operands are replaced by the translated point in
fixed 3-decimal format; the z operand is re-emitted from its parsed value
with no offset applied, in the same fixed 3-decimal format; a Position match
additionally re-emits its rotation from its parsed value with no offset in
fixed 0-decimal format; a match with an invalid cell is re-emitted exactly as
its original matched text. -/
theorem rewrite_spatial_only_amended (db : Database) (conversionType : Int)
    (custom : Int × Int → Bool) (offset : GridOffset) (m : AiEscortMatch)
    (pm : PositionMatch) :
    ((isCoordinateValid db conversionType (cellOf (parseDecimal m.xStr))
        (cellOf (parseDecimal m.yStr)) custom).result = true →
      rewriteAiEscortStep db conversionType custom offset m
        = (m.kw ++ commaSep ++ m.actorID ++ commaSep ++ m.duration ++ commaSep
            ++ fmt3 ((translatePoint (parseDecimal m.xStr, parseDecimal m.yStr) offset).1)
            ++ commaSep
            ++ fmt3 ((translatePoint (parseDecimal m.xStr, parseDecimal m.yStr) offset).2)
            ++ commaSep ++ fmt3 (parseDecimal m.zStr)
            ++ (match m.reset with
                | some rv => commaSep ++ rv
                | none => []), true))
    ∧ ((isCoordinateValid db conversionType (cellOf (parseDecimal m.xStr))
        (cellOf (parseDecimal m.yStr)) custom).result = false →
      rewriteAiEscortStep db conversionType custom offset m = (m.full, false))
    ∧ ((isCoordinateValid db conversionType (cellOf (parseDecimal pm.xStr))
        (cellOf (parseDecimal pm.yStr)) custom).result = true →
      rewritePositionStep db conversionType custom offset pm
        = (pm.kw ++ commaSep
            ++ fmt3 ((translatePoint (parseDecimal pm.xStr, parseDecimal pm.yStr) offset).1)
            ++ commaSep
            ++ fmt3 ((translatePoint (parseDecimal pm.xStr, parseDecimal pm.yStr) offset).2)
            ++ commaSep ++ fmt3 (parseDecimal pm.zStr)
            ++ commaSep ++ fmt0 (parseDecimal pm.rotStr), true))
    ∧ ((isCoordinateValid db conversionType (cellOf (parseDecimal pm.xStr))
        (cellOf (parseDecimal pm.yStr)) custom).result = false →
      rewritePositionStep db conversionType custom offset pm = (pm.full, false)) := by
  refine ⟨?_, ?_, ?_, ?_⟩
  · intro h
    simp only [rewriteAiEscortStep, translatePoint, h, if_true]
  · intro h
    simp only [rewriteAiEscortStep, h, Bool.false_eq_true, if_false]
  · intro h
    simp only [rewritePositionStep, translatePoint, h, if_true]
  · intro h
    simp only [rewritePositionStep, h, Bool.false_eq_true, if_false]

/-- Witness for C4 as amended: a concrete valid AiEscort match and a concrete
invalid Position match. -/
theorem rewrite_spatial_only_amended_witness :
    ((isCoordinateValid (Database.table fun gx gy => decide (gx = 0 ∧ gy = 0)) 1
        (cellOf (parseDecimal (String.toList "1000.0")))
        (cellOf (parseDecimal (String.toList "2000.0"))) (fun _ => false)).result = true
      ∧ rewriteAiEscortStep (Database.table fun gx gy => decide (gx = 0 ∧ gy = 0)) 1
          (fun _ => false) (getGridOffset 1)
          { kw := String.toList "AiEscort", actorID := String.toList "\"a1\"",
            duration := String.toList "5", xStr := String.toList "1000.0",
            yStr := String.toList "2000.0", zStr := String.toList "0.5", reset := none,
            full := String.toList "AiEscort, \"a1\", 5, 1000.0, 2000.0, 0.5" }
        = (String.toList "AiEscort" ++ commaSep ++ String.toList "\"a1\"" ++ commaSep
            ++ String.toList "5" ++ commaSep
            ++ fmt3 ((translatePoint (parseDecimal (String.toList "1000.0"),
                parseDecimal (String.toList "2000.0")) (getGridOffset 1)).1)
            ++ commaSep
            ++ fmt3 ((translatePoint (parseDecimal (String.toList "1000.0"),
                parseDecimal (String.toList "2000.0")) (getGridOffset 1)).2)
            ++ commaSep ++ fmt3 (parseDecimal (String.toList "0.5")) ++ [], true))
    ∧ ((isCoordinateValid (Database.table fun gx gy => decide (gx = 0 ∧ gy = 0)) 1
        (cellOf (parseDecimal (String.toList "90000.0")))
        (cellOf (parseDecimal (String.toList "90000.0"))) (fun _ => false)).result = false
      ∧ rewritePositionStep (Database.table fun gx gy => decide (gx = 0 ∧ gy = 0)) 1
          (fun _ => false) (getGridOffset 1)
          { kw := String.toList "Position", xStr := String.toList "90000.0",
            yStr := String.toList "90000.0", zStr := String.toList "10.0",
            rotStr := String.toList "90",
            full := String.toList "Position, 90000.0, 90000.0, 10.0, 90" }
        = (String.toList "Position, 90000.0, 90000.0, 10.0, 90", false)) :=
  ⟨⟨cexValid00,
    (rewrite_spatial_only_amended (Database.table fun gx gy => decide (gx = 0 ∧ gy = 0)) 1
      (fun _ => false) (getGridOffset 1)
      { kw := String.toList "AiEscort", actorID := String.toList "\"a1\"",
        duration := String.toList "5", xStr := String.toList "1000.0",
        yStr := String.toList "2000.0", zStr := String.toList "0.5", reset := none,
        full := String.toList "AiEscort, \"a1\", 5, 1000.0, 2000.0, 0.5" }
      { kw := String.toList "Position", xStr := String.toList "90000.0",
        yStr := String.toList "90000.0", zStr := String.toList "10.0",
        rotStr := String.toList "90",
        full := String.toList "Position, 90000.0, 90000.0, 10.0, 90" }).1 cexValid00⟩,
   ⟨cexInvalid1010,
    (rewrite_spatial_only_amended (Database.table fun gx gy => decide (gx = 0 ∧ gy = 0)) 1
      (fun _ => false) (getGridOffset 1)
      { kw := String.toList "AiEscort", actorID := String.toList "\"a1\"",
        duration := String.toList "5", xStr := String.toList "1000.0",
        yStr := String.toList "2000.0", zStr := String.toList "0.5", reset := none,
        full := String.toList "AiEscort, \"a1\", 5, 1000.0, 2000.0, 0.5" }
      { kw := String.toList "Position", xStr := String.toList "90000.0",
        yStr := String.toList "90000.0", zStr := String.toList "10.0",
        rotStr := String.toList "90",
        full := String.toList "Position, 90000.0, 90000.0, 10.0, 90" }).2.2.2 cexInvalid1010⟩⟩

/-! ### Structured passes: the reference sub-pass, grid pass, dependency
check and per-file control flow -/

/-- The record part of `processTranslation` does not depend on the incoming
replacements flag. -/
theorem processTranslation_fst_flagFree (offset : GridOffset) (rec0 : Rec) (f g : Int) :
    (processTranslation offset rec0 f).1 = (processTranslation offset rec0 g).1 := by
  unfold processTranslation
  cases h : rec0.references <;> simp

/-- The reference sub-pass touches only the `references` field. -/
theorem processTranslation_preserves_grids (offset : GridOffset) (rec0 : Rec) (f : Int) :
    (processTranslation offset rec0 f).1.grid = rec0.grid
    ∧ (processTranslation offset rec0 f).1.dataGrid = rec0.dataGrid := by
  unfold processTranslation
  cases h : rec0.references <;> simp

/-- C6: the per-Cell reference sub-pass maps every reference through the
shift rule: a reference marked deleted is returned untouched, and a
non-deleted reference carrying the temporary marker and a translation array
of at least two components has its first two components unconditionally
shifted by offset times 8192 — the sub-pass takes no database and no
override set, so no region-validity lookup can occur. -/
theorem processTranslation_unconditional_shift (offset : GridOffset) (rec0 : Rec)
    (refs : List CellRef) (flag : Int) :
    (rec0.references = some refs →
      (processTranslation offset rec0 flag).1.references
        = some (refs.map (fun r => (processRefTr offset r).1)))
    ∧ (∀ r : CellRef,
      (r.deleted = some true → (processRefTr offset r).1 = r)
      ∧ (¬ r.deleted = some true → r.temporary = true →
          ∀ x y restT, r.translation = some (x :: y :: restT) →
            (processRefTr offset r).1
              = { r with translation := some ((x + ((offset.offsetX * 8192 : Int) : ℚ)) :: (y + ((offset.offsetY * 8192 : Int) : ℚ)) :: restT) })) := by
  constructor
  · intro h
    unfold processTranslation
    rw [h]
    simp [List.map_map]
  · intro r
    constructor
    · intro hd
      unfold processRefTr
      rw [if_pos hd]
    · intro hnd ht x y restT htr
      simp only [processRefTr, if_neg hnd, ht, if_true, htr]

/-- Witness for C6: a deleted reference is untouched and a temporary
reference at (100, 200, 5) is shifted by the forward offset. -/
theorem processTranslation_unconditional_shift_witness :
    (({ type := some "Cell", recId := none, grid := none, dataGrid := none, references := some [{ refId := some "door", deleted := some true, temporary := true, translation := some [100, 200, 5] }], masters := none, text := none } : Rec).references
      = some [{ refId := some "door", deleted := some true, temporary := true, translation := some [100, 200, 5] }]
      ∧ (processTranslation (getGridOffset 1)
          { type := some "Cell", recId := none, grid := none, dataGrid := none, references := some [{ refId := some "door", deleted := some true, temporary := true, translation := some [100, 200, 5] }], masters := none, text := none } 0).1.references
        = some ([{ refId := some "door", deleted := some true, temporary := true, translation := some [100, 200, 5] }].map
              (fun r => (processRefTr (getGridOffset 1) r).1)))
    ∧ (({ refId := some "door", deleted := some true, temporary := true, translation := some [100, 200, 5] } : CellRef).deleted = some true
      ∧ (processRefTr (getGridOffset 1)
          { refId := some "door", deleted := some true, temporary := true, translation := some [100, 200, 5] }).1
        = { refId := some "door", deleted := some true, temporary := true, translation := some [100, 200, 5] })
    ∧ (¬ ({ refId := some "rock", deleted := none, temporary := true, translation := some [100, 200, 5] } : CellRef).deleted = some true
      ∧ (processRefTr (getGridOffset 1)
          { refId := some "rock", deleted := none, temporary := true, translation := some [100, 200, 5] }).1
        = { refId := some "rock", deleted := none, temporary := true, translation := some ((100 + (((getGridOffset 1).offsetX * 8192 : Int) : ℚ)) :: (200 + (((getGridOffset 1).offsetY * 8192 : Int) : ℚ)) :: [5]) }) :=
  ⟨⟨rfl,
    (processTranslation_unconditional_shift (getGridOffset 1)
      { type := some "Cell", recId := none, grid := none, dataGrid := none, references := some [{ refId := some "door", deleted := some true, temporary := true, translation := some [100, 200, 5] }], masters := none, text := none }
      [{ refId := some "door", deleted := some true, temporary := true, translation := some [100, 200, 5] }] 0).1 rfl⟩,
   ⟨rfl,
    ((processTranslation_unconditional_shift (getGridOffset 1)
      { type := some "Cell", recId := none, grid := none, dataGrid := none, references := none, masters := none, text := none } [] 0).2
      { refId := some "door", deleted := some true, temporary := true, translation := some [100, 200, 5] }).1 rfl⟩,
   ⟨by simp,
    ((processTranslation_unconditional_shift (getGridOffset 1)
      { type := some "Cell", recId := none, grid := none, dataGrid := none, references := none, masters := none, text := none } [] 0).2
      { refId := some "rock", deleted := none, temporary := true, translation := some [100, 200, 5] }).2 (by simp) rfl 100 200 [5] rfl⟩⟩

/-- The record part of `processGridItem` does not depend on the incoming
replacements flag. -/
theorem processGridItem_fst_flagFree (db : Database) (conversionType : Int)
    (custom : Int × Int → Bool) (offset : GridOffset) (item : Rec) (f g : Int) :
    (processGridItem db conversionType custom offset item f).1
      = (processGridItem db conversionType custom offset item g).1 := by
  unfold processGridItem
  cases item.type with
  | none => rfl
  | some t =>
      dsimp only
      split
      · split
        · rfl
        · split
          · split
            · dsimp only
              split
              · exact processTranslation_fst_flagFree offset _ f g
              · rfl
            · rfl
          · split
            · dsimp only
              split
              · exact processTranslation_fst_flagFree offset _ f g
              · rfl
            · rfl
      · rfl

/-- C10: the item loop of processGridValues maps each record through the
per-item rule, and on a Cell, Landscape or PathGrid record carrying a grid
array both at top level and under `data`, the rule reads the top-level pair
(the validity probe and the shift use it), writes the shifted pair back to
the top level only, and leaves `data.grid` exactly as it was. -/
theorem processGridValues_topLevel_priority (db : Database) (conversionType : Int)
    (custom : Int × Int → Bool) (offset : GridOffset) (items : List Rec) (flag : Int) :
    ((processGridValues db conversionType custom offset items flag).1
      = items.map (fun i => (processGridItem db conversionType custom offset i 0).1))
    ∧ (∀ (item : Rec) (t : String) (p q : Int × Int),
        item.type = some t → (t = "Cell" ∨ t = "Landscape" ∨ t = "PathGrid") →
        item.grid = some p → item.dataGrid = some q →
        ((processGridItem db conversionType custom offset item flag).1.dataGrid = some q
          ∧ (processGridItem db conversionType custom offset item flag).1.grid
              = some (if (isCoordinateValid db conversionType p.1 p.2 custom).result
                  then (p.1 + offset.offsetX, p.2 + offset.offsetY) else p))) := by
  constructor
  · induction items generalizing flag with
    | nil => rfl
    | cons i rest ih =>
        unfold processGridValues
        dsimp only
        rw [List.map_cons, ih]
        rw [processGridItem_fst_flagFree db conversionType custom offset i flag 0]
  · intro item t p q h1 h2 h3 h4
    unfold processGridItem
    rw [h1]
    dsimp only
    rw [if_pos h2, h3, h4]
    dsimp only [Option.isSome_some, Option.getD_some]
    rw [if_neg (by simp : ¬ ((true : Bool) = false ∧ (true : Bool) = false))]
    rw [if_pos rfl, if_pos rfl]
    by_cases hvalid : (isCoordinateValid db conversionType p.1 p.2 custom).result = true
    · rw [if_pos hvalid, if_pos hvalid]
      by_cases hcell : t = "Cell"
      · rw [if_pos hcell]
        dsimp only
        constructor
        · rw [(processTranslation_preserves_grids offset _ flag).2]
        · rw [(processTranslation_preserves_grids offset _ flag).1]
      · rw [if_neg hcell]
        exact ⟨rfl, rfl⟩
    · rw [if_neg hvalid, if_neg hvalid]
      exact ⟨h4, h3⟩

/-- Witness for C10: a Cell record with both grid shapes; the top-level pair
(3, 4) is in the table, the nested pair is (7, 8). -/
theorem processGridValues_topLevel_priority_witness :
    (({ type := some "Cell", recId := none, grid := some (3, 4), dataGrid := some (7, 8),
        references := none, masters := none, text := none } : Rec).type = some "Cell"
      ∧ ("Cell" = "Cell" ∨ "Cell" = "Landscape" ∨ "Cell" = "PathGrid"))
    ∧ ((processGridItem (Database.table fun gx gy => decide (gx = 3 ∧ gy = 4)) 1
          (fun _ => false) (getGridOffset 1)
          { type := some "Cell", recId := none, grid := some (3, 4), dataGrid := some (7, 8),
            references := none, masters := none, text := none } 0).1.dataGrid = some (7, 8)
      ∧ (processGridItem (Database.table fun gx gy => decide (gx = 3 ∧ gy = 4)) 1
          (fun _ => false) (getGridOffset 1)
          { type := some "Cell", recId := none, grid := some (3, 4), dataGrid := some (7, 8),
            references := none, masters := none, text := none } 0).1.grid
        = some (if (isCoordinateValid (Database.table fun gx gy => decide (gx = 3 ∧ gy = 4)) 1
              3 4 (fun _ => false)).result
            then (3 + (getGridOffset 1).offsetX, 4 + (getGridOffset 1).offsetY) else (3, 4))) :=
  ⟨⟨rfl, Or.inl rfl⟩,
   (processGridValues_topLevel_priority (Database.table fun gx gy => decide (gx = 3 ∧ gy = 4)) 1
      (fun _ => false) (getGridOffset 1) [] 0).2
      { type := some "Cell", recId := none, grid := some (3, 4), dataGrid := some (7, 8),
        references := none, masters := none, text := none } "Cell" (3, 4) (7, 8)
      rfl (Or.inl rfl) rfl rfl⟩

/-- C7: checkDependencyOrder succeeds exactly as specified — it fails when
there is no Header record or no masters list; with a Header and masters list
it succeeds precisely when Morrowind.esm is present and either Tribunal.esm
and Bloodmoon.esm are both present in the order Morrowind, Tribunal,
Bloodmoon, or Bloodmoon.esm is present without Tribunal.esm and after
Morrowind.esm (positions being those of the last occurrence of each
name). -/
theorem checkDependencyOrder_spec (doc : List Rec) :
    (doc.find? (fun item => item.type = some "Header") = none →
      checkDependencyOrder doc = false)
    ∧ (∀ header, doc.find? (fun item => item.type = some "Header") = some header →
        header.masters = none → checkDependencyOrder doc = false)
    ∧ (∀ header ms, doc.find? (fun item => item.type = some "Header") = some header →
        header.masters = some ms →
        (checkDependencyOrder doc = true ↔
          ∃ mwPos, (masterPositions ms).1 = some mwPos ∧
            ((∃ tPos bPos, (masterPositions ms).2.1 = some tPos
                ∧ (masterPositions ms).2.2 = some bPos ∧ mwPos < tPos ∧ tPos < bPos)
             ∨ ((masterPositions ms).2.1 = none
                ∧ ∃ bPos, (masterPositions ms).2.2 = some bPos ∧ mwPos < bPos)))) := by
  refine ⟨?_, ?_, ?_⟩
  · intro h
    unfold checkDependencyOrder
    rw [h]
  · intro header h1 h2
    unfold checkDependencyOrder
    rw [h1]
    dsimp only
    rw [h2]
  · intro header ms h1 h2
    unfold checkDependencyOrder
    rw [h1]
    dsimp only
    rw [h2]
    dsimp only
    cases hmw : (masterPositions ms).1 with
    | none => simp [hmw]
    | some mwPos =>
        cases ht : (masterPositions ms).2.1 with
        | some tPos =>
            cases hb : (masterPositions ms).2.2 with
            | some bPos => simp [hmw, ht, hb]
            | none => simp [hmw, ht, hb]
        | none =>
            cases hb : (masterPositions ms).2.2 with
            | some bPos => simp [hmw, ht, hb]
            | none => simp [hmw, ht, hb]

/-- Witness for C7: a Header whose masters are Morrowind.esm then
Bloodmoon.esm validates via the Bloodmoon-after-Morrowind arm. -/
theorem checkDependencyOrder_spec_witness :
    (List.find? (fun item => item.type = some "Header")
        [({ type := some "Header", recId := none, grid := none, dataGrid := none, references := none, masters := some [some "Morrowind.esm", some "Bloodmoon.esm"], text := none } : Rec)]
      = some { type := some "Header", recId := none, grid := none, dataGrid := none, references := none, masters := some [some "Morrowind.esm", some "Bloodmoon.esm"], text := none })
    ∧ ({ type := some "Header", recId := none, grid := none, dataGrid := none, references := none, masters := some [some "Morrowind.esm", some "Bloodmoon.esm"], text := none } : Rec).masters
      = some [some "Morrowind.esm", some "Bloodmoon.esm"]
    ∧ (checkDependencyOrder
        [({ type := some "Header", recId := none, grid := none, dataGrid := none, references := none, masters := some [some "Morrowind.esm", some "Bloodmoon.esm"], text := none } : Rec)] = true ↔
      ∃ mwPos, (masterPositions [some "Morrowind.esm", some "Bloodmoon.esm"]).1 = some mwPos ∧
        ((∃ tPos bPos, (masterPositions [some "Morrowind.esm", some "Bloodmoon.esm"]).2.1 = some tPos
            ∧ (masterPositions [some "Morrowind.esm", some "Bloodmoon.esm"]).2.2 = some bPos
            ∧ mwPos < tPos ∧ tPos < bPos)
         ∨ ((masterPositions [some "Morrowind.esm", some "Bloodmoon.esm"]).2.1 = none
            ∧ ∃ bPos, (masterPositions [some "Morrowind.esm", some "Bloodmoon.esm"]).2.2
                = some bPos ∧ mwPos < bPos))) :=
  ⟨rfl, rfl,
   (checkDependencyOrder_spec
      [({ type := some "Header", recId := none, grid := none, dataGrid := none, references := none, masters := some [some "Morrowind.esm", some "Bloodmoon.esm"], text := none } : Rec)]).2.2
      { type := some "Header", recId := none, grid := none, dataGrid := none, references := none, masters := some [some "Morrowind.esm", some "Bloodmoon.esm"], text := none }
      [some "Morrowind.esm", some "Bloodmoon.esm"] rfl rfl⟩

/-- C8: when the scan finishes with the replacements flag still 0, the
per-file step stops with the dedicated skipped outcome and emits no output
document, and the batch loop processes the remaining files exactly as it
would on their own. -/
theorem mainFileStep_noop_skip (alreadyTagged : List Rec → Bool)
    (addTag : List Rec → Option (List Rec)) (scan : List Rec → List Rec × Int)
    (file : InputFile) (rest : List InputFile) :
    (file.convertOk = true → file.loadOk = true → alreadyTagged file.doc = false →
      checkDependencyOrder file.doc = true → (scan file.doc).2 = 0 →
      mainFileStep alreadyTagged addTag scan file
        = { outcome := .skippedNoReplacements, emitted := none })
    ∧ processBatch alreadyTagged addTag scan (file :: rest)
        = mainFileStep alreadyTagged addTag scan file
            :: processBatch alreadyTagged addTag scan rest := by
  constructor
  · intro h1 h2 h3 h4 h5
    unfold mainFileStep
    simp [h1, h2, h3, h4, h5]
  · rfl

/-- Witness for C8: a well-formed input file whose scan reports zero
replacements is skipped without emission, with a second file still mapped by
the batch. -/
theorem mainFileStep_noop_skip_witness :
    (({ doc := [({ type := some "Header", recId := none, grid := none, dataGrid := none, references := none, masters := some [some "Morrowind.esm", some "Bloodmoon.esm"], text := none } : Rec)], convertOk := true, loadOk := true, saveOk := true, backupOk := true, convertBackOk := true } : InputFile).convertOk = true)
    ∧ ((fun d : List Rec => (d, (0 : Int)))
        [({ type := some "Header", recId := none, grid := none, dataGrid := none, references := none, masters := some [some "Morrowind.esm", some "Bloodmoon.esm"], text := none } : Rec)]).2 = 0
    ∧ mainFileStep (fun _ => false) (fun d => some d) (fun d => (d, 0))
        { doc := [({ type := some "Header", recId := none, grid := none, dataGrid := none, references := none, masters := some [some "Morrowind.esm", some "Bloodmoon.esm"], text := none } : Rec)], convertOk := true, loadOk := true, saveOk := true, backupOk := true, convertBackOk := true }
      = { outcome := .skippedNoReplacements, emitted := none } :=
  ⟨rfl, rfl,
   (mainFileStep_noop_skip (fun _ => false) (fun d => some d) (fun d => (d, 0))
      { doc := [({ type := some "Header", recId := none, grid := none, dataGrid := none, references := none, masters := some [some "Morrowind.esm", some "Bloodmoon.esm"], text := none } : Rec)], convertOk := true, loadOk := true, saveOk := true, backupOk := true, convertBackOk := true }
      []).1 rfl rfl rfl (by decide) rfl⟩

end TES3AB
